import Mathlib

/-!
Shallow embedding of the computational core of the Bloomix backend
(`app/routers/planner.py`, `app/routers/spots.py`, `app/utils/geo.py`).

Python integers are modelled as `ℤ`, Python floats as `ℚ` where the code
only performs field arithmetic (planner scoring), and as `ℝ` where the code
uses trigonometry (haversine distances).  `float('inf')` is modelled as
`⊤ : WithTop ℝ`.  Exceptions are modelled with `Option`/`Except`.
-/

/-! ### planner.py : efficiency score -/

/-- The function `calculate_efficiency_score` from `app/routers/planner.py`.
Inputs are Python ints; the returned float is modelled exactly in `ℚ`. -/
def calculate_efficiency_score (actual_min target_min tolerance_min : ℤ) : ℚ :=
  if actual_min ≤ target_min then 1
  else
    if actual_min - target_min ≤ tolerance_min then
      1 - (((actual_min - target_min : ℤ) : ℚ) / ((tolerance_min : ℤ) : ℚ)) * 0.2
    else
      max 0 (0.8 - ((actual_min - target_min - tolerance_min : ℤ) : ℚ) / ((target_min : ℤ) : ℚ))

/-! ### planner.py : content records and greedy playlist construction -/

/-- The fields of a `Content` row used by `generate_playlist_greedy`. -/
structure Content where
  id : ℤ
  title : String
  duration_min : ℤ
  lang : Option String
  media_type : String
  thumbnail_url : Option String
deriving DecidableEq, Repr

/-- One entry of the playlist built by `generate_playlist_greedy`
(the dict appended to `playlist`). -/
structure PlaylistItem where
  content_id : ℤ
  title : String
  duration_min : ℤ
  lang : Option String
  media_type : String
  thumbnail_url : Option String
  total_duration_min : ℤ
  remaining_min : ℤ
  related_oshis : List String
deriving DecidableEq, Repr

/-- The `PlaylistSummary` pydantic model. -/
structure PlaylistSummary where
  total_duration_min : ℤ
  target_duration_min : ℤ
  overage_min : ℤ
  efficiency_score : ℚ
deriving DecidableEq, Repr

/-- The mutable loop state of `generate_playlist_greedy`
(`playlist`, `current_duration`, `remaining_duration`). -/
structure GreedyState where
  playlist : List PlaylistItem
  current_duration : ℤ
  remaining_duration : ℤ
deriving DecidableEq, Repr

/-- Appending one content to the playlist, as done in both greedy loops:
the entry records the cumulative duration and the clamped remaining time,
and the state advances `current_duration`/`remaining_duration`. -/
def greedy_append (relOshis : Content → List String) (target_duration_min : ℤ)
    (c : Content) (st : GreedyState) : GreedyState :=
  { playlist := st.playlist ++
      [{ content_id := c.id
         title := c.title
         duration_min := c.duration_min
         lang := c.lang
         media_type := c.media_type
         thumbnail_url := c.thumbnail_url
         total_duration_min := st.current_duration + c.duration_min
         remaining_min := max 0 (target_duration_min - (st.current_duration + c.duration_min))
         related_oshis := relOshis c }]
    current_duration := st.current_duration + c.duration_min
    remaining_duration := target_duration_min - (st.current_duration + c.duration_min) }

/-- One greedy pass of `generate_playlist_greedy` (steps 5 and 6 of the
Python function): walk the (already shuffled) list, break as soon as
`len(playlist) >= max_items`, and append every content whose duration fits
within `remaining_duration + tolerance_min`. -/
def greedy_pass (relOshis : Content → List String)
    (target_duration_min tolerance_min max_items : ℤ) :
    List Content → GreedyState → GreedyState
  | [], st => st
  | c :: rest, st =>
    if (st.playlist.length : ℤ) ≥ max_items then st
    else if c.duration_min ≤ st.remaining_duration + tolerance_min then
      greedy_pass relOshis target_duration_min tolerance_min max_items rest
        (greedy_append relOshis target_duration_min c st)
    else
      greedy_pass relOshis target_duration_min tolerance_min max_items rest st

/-- The priority band of step 4: contents whose duration lies between
5% and 15% of the target duration (both comparisons inclusive, performed
on floats; modelled in `ℚ`). -/
def priority_contents (target_duration_min : ℤ) (pool : List Content) : List Content :=
  pool.filter (fun c =>
    ((target_duration_min : ℚ) * 0.05 ≤ (c.duration_min : ℚ) ∧
     (c.duration_min : ℚ) ≤ (target_duration_min : ℚ) * 0.15 : Prop))

/-- The complement used for `other_contents` in step 4. -/
def other_contents (target_duration_min : ℤ) (pool : List Content) : List Content :=
  pool.filter (fun c =>
    ((c.duration_min : ℚ) < (target_duration_min : ℚ) * 0.05 ∨
     (target_duration_min : ℚ) * 0.15 < (c.duration_min : ℚ) : Prop))

/-- The pure core of `generate_playlist_greedy` (steps 5–7), taking the two
already shuffled partitions as inputs: the priority pass, the gated second
pass over the other contents (run only when `remaining_duration >
tolerance_min` and the playlist is not full), and the summary computation. -/
def generate_playlist_core (relOshis : Content → List String)
    (target_duration_min tolerance_min max_items : ℤ)
    (shuffled_priority shuffled_other : List Content) :
    List PlaylistItem × PlaylistSummary :=
  let st0 : GreedyState := ⟨[], 0, target_duration_min⟩
  let st1 := greedy_pass relOshis target_duration_min tolerance_min max_items
    shuffled_priority st0
  let st2 :=
    if st1.remaining_duration > tolerance_min ∧ (st1.playlist.length : ℤ) < max_items then
      greedy_pass relOshis target_duration_min tolerance_min max_items
        shuffled_other st1
    else st1
  (st2.playlist,
   { total_duration_min := st2.current_duration
     target_duration_min := target_duration_min
     overage_min := max 0 (st2.current_duration - target_duration_min)
     efficiency_score :=
       calculate_efficiency_score st2.current_duration target_duration_min tolerance_min })

example :
    calculate_efficiency_score 63 60 5 = 0.88 := by
  norm_num [calculate_efficiency_score]

example :
    calculate_efficiency_score 70 60 5 = 43/60 := by
  norm_num [calculate_efficiency_score]

/-! ### spots.py : polyline decoding -/

/-- The inner `while True` loop of `decode_polyline`: consume 5-bit groups
from the character list, or-ing `(ord(c) - 63) & 0x1F` (which equals
`(ord(c) + 1) % 32`) into `result` at the current shift, until a character
with `ord(c) - 63 < 0x20` terminates the group.  Running out of characters
corresponds to the `IndexError` the Python code would raise, hence `none`. -/
def decode_chunk : List Char → ℕ → ℕ → Option (ℕ × List Char)
  | [], _, _ => none
  | c :: rest, shift, result =>
    if 95 ≤ c.toNat then
      decode_chunk rest (shift + 5) (result ||| (((c.toNat + 1) % 32) <<< shift))
    else
      some (result ||| (((c.toNat + 1) % 32) <<< shift), rest)

/-- The zig-zag step `~(result >> 1) if (result & 1) else (result >> 1)`
(Python's `~x` is `-x - 1`). -/
def zigzag_delta (result : ℕ) : ℤ :=
  if result % 2 = 1 then -((result / 2 : ℕ) : ℤ) - 1 else ((result / 2 : ℕ) : ℤ)

theorem decode_chunk_length_lt :
    ∀ (l : List Char) (s r : ℕ) (x : ℕ × List Char),
      decode_chunk l s r = some x → x.2.length < l.length := by
  intro l
  induction l with
  | nil => intro s r x h; simp [decode_chunk] at h
  | cons c rest ih =>
    intro s r x h
    simp only [decode_chunk] at h
    split at h
    · exact Nat.lt_trans (ih _ _ _ h) (Nat.lt_succ_self _)
    · cases h
      exact Nat.lt_succ_self _

/-- The outer `while index < len(polyline)` loop of `decode_polyline`,
accumulating the integer latitude/longitude running totals.  `none` marks
the cases in which the Python code raises (a group truncated by the end of
the string, including a never-terminating continuation bit).  The loop
consumes at least one character per chunk, so the recursion is phrased
with a fuel argument; `decode_loop_fuel_irrel` below shows that any fuel
larger than the character count gives the same (fuel-free) semantics. -/
def decode_loop : ℕ → List Char → ℤ → ℤ → Option (List (ℤ × ℤ))
  | 0, _, _, _ => none
  | _ + 1, [], _, _ => some []
  | fuel + 1, c :: l, lat, lng =>
    match decode_chunk (c :: l) 0 0 with
    | none => none
    | some (r1, rest1) =>
      match decode_chunk rest1 0 0 with
      | none => none
      | some (r2, rest2) =>
        match decode_loop fuel rest2 (lat + zigzag_delta r1) (lng + zigzag_delta r2) with
        | none => none
        | some pts => some ((lat + zigzag_delta r1, lng + zigzag_delta r2) :: pts)

/-- The integer-total decoding of a whole character list, with fuel large
enough never to run out. -/
def decode_points (l : List Char) (lat lng : ℤ) : Option (List (ℤ × ℤ)) :=
  decode_loop (l.length + 1) l lat lng

theorem decode_loop_fuel_irrel :
    ∀ (fuel₁ fuel₂ : ℕ) (l : List Char) (lat lng : ℤ),
      l.length < fuel₁ → l.length < fuel₂ →
      decode_loop fuel₁ l lat lng = decode_loop fuel₂ l lat lng := by
  intro fuel₁
  induction fuel₁ with
  | zero => intro fuel₂ l lat lng h₁ _; exact absurd h₁ (Nat.not_lt_zero _)
  | succ f ih =>
    intro fuel₂ l lat lng h₁ h₂
    match fuel₂, h₂ with
    | g + 1, h₂ =>
      match l with
      | [] => rfl
      | c :: rest =>
        simp only [decode_loop]
        cases hc1 : decode_chunk (c :: rest) 0 0 with
        | none => rfl
        | some x1 =>
          obtain ⟨r1, rest1⟩ := x1
          dsimp only
          cases hc2 : decode_chunk rest1 0 0 with
          | none => rfl
          | some x2 =>
            obtain ⟨r2, rest2⟩ := x2
            dsimp only
            have hl1 : rest1.length < (c :: rest).length :=
              decode_chunk_length_lt _ _ _ _ hc1
            have hl2 : rest2.length < rest1.length :=
              decode_chunk_length_lt _ _ _ _ hc2
            have hf : rest2.length < f :=
              Nat.lt_of_lt_of_le (Nat.lt_trans hl2 hl1) (Nat.lt_succ_iff.mp h₁)
            have hg : rest2.length < g :=
              Nat.lt_of_lt_of_le (Nat.lt_trans hl2 hl1) (Nat.lt_succ_iff.mp h₂)
            rw [ih g rest2 (lat + zigzag_delta r1) (lng + zigzag_delta r2) hf hg]

/-- The function `decode_polyline` from `app/routers/spots.py`: each appended point is
`(lat * 1e-5, lng * 1e-5)` for the integer totals current at that moment,
and the surrounding `try`/`except` turns any decoding error into `[]`. -/
def decode_polyline (polyline : String) : List (ℚ × ℚ) :=
  ((decode_points polyline.data 0 0).getD []).map
    (fun p => ((p.1 : ℚ) * 0.00001, (p.2 : ℚ) * 0.00001))

example :
    decode_points "_p~iF~ps|U_ulLnnqC_mqNvxq`@".data 0 0 =
      some [(3850000, -12020000), (4070000, -12095000), (4325200, -12645300)] := by
  decide

/-! ### utils/geo.py : great-circle distance -/

/-- The constant `EARTH_RADIUS_KM` from `app/utils/geo.py`. -/
noncomputable def EARTH_RADIUS_KM : ℝ := 6371.0088

/-- A model of Python's `math.atan2`. -/
noncomputable def atan2 (y x : ℝ) : ℝ :=
  if 0 < x then Real.arctan (y / x)
  else if x < 0 then
    if 0 ≤ y then Real.arctan (y / x) + Real.pi else Real.arctan (y / x) - Real.pi
  else
    if 0 < y then Real.pi / 2 else if y < 0 then -(Real.pi / 2) else 0

/-- A model of Python's `math.radians`. -/
noncomputable def radians (x : ℝ) : ℝ := x * Real.pi / 180

/-- The intermediate value `a` computed inside `haversine_km`. -/
noncomputable def hav_a (lat1 lon1 lat2 lon2 : ℝ) : ℝ :=
  Real.sin (radians (lat2 - lat1) / 2) ^ 2 +
    Real.cos (radians lat1) * Real.cos (radians lat2) *
      Real.sin (radians (lon2 - lon1) / 2) ^ 2

/-- The function `haversine_km` from `app/utils/geo.py`:
`c = 2 * atan2(sqrt(a), sqrt(1 - a))`, result `EARTH_RADIUS_KM * c`. -/
noncomputable def haversine_km (lat1 lon1 lat2 lon2 : ℝ) : ℝ :=
  EARTH_RADIUS_KM *
    (2 * atan2 (Real.sqrt (hav_a lat1 lon1 lat2 lon2))
      (Real.sqrt (1 - hav_a lat1 lon1 lat2 lon2)))

/-! ### spots.py : distance from a point to the decoded route -/

/-- The local variable `segment_length` of `calculate_distance_to_route`
(metres). -/
noncomputable def seg_len_m (lat1 lng1 lat2 lng2 : ℝ) : ℝ :=
  haversine_km lat1 lng1 lat2 lng2 * 1000

/-- The local variable `dot_product` of `calculate_distance_to_route`:
the numerator mixes degree components while the denominator is in metres,
exactly as in the source. -/
noncomputable def seg_dot (spot_lat spot_lng lat1 lng1 lat2 lng2 : ℝ) : ℝ :=
  ((spot_lat - lat1) * (lat2 - lat1) + (spot_lng - lng1) * (lng2 - lng1)) /
    (seg_len_m lat1 lng1 lat2 lng2 * seg_len_m lat1 lng1 lat2 lng2)

/-- The distance contributed by one segment of the route in one iteration
of the loop of `calculate_distance_to_route`. -/
noncomputable def segment_distance (spot_lat spot_lng lat1 lng1 lat2 lng2 : ℝ) : ℝ :=
  if seg_len_m lat1 lng1 lat2 lng2 = 0 then
    haversine_km spot_lat spot_lng lat1 lng1 * 1000
  else if seg_dot spot_lat spot_lng lat1 lng1 lat2 lng2 ≤ 0 then
    haversine_km spot_lat spot_lng lat1 lng1 * 1000
  else if 1 ≤ seg_dot spot_lat spot_lng lat1 lng1 lat2 lng2 then
    haversine_km spot_lat spot_lng lat2 lng2 * 1000
  else
    haversine_km spot_lat spot_lng
      (lat1 + seg_dot spot_lat spot_lng lat1 lng1 lat2 lng2 * (lat2 - lat1))
      (lng1 + seg_dot spot_lat spot_lng lat1 lng1 lat2 lng2 * (lng2 - lng1)) * 1000

/-- The function `calculate_distance_to_route` from `app/routers/spots.py`:
`min_distance` starts at `float('inf')` (modelled as `⊤ : WithTop ℝ`) and
is lowered by each consecutive pair of route points. -/
noncomputable def calculate_distance_to_route (spot_lat spot_lng : ℝ)
    (route_points : List (ℝ × ℝ)) : WithTop ℝ :=
  (route_points.zip route_points.tail).foldl
    (fun m seg =>
      min m ↑(segment_distance spot_lat spot_lng seg.1.1 seg.1.2 seg.2.1 seg.2.2)) ⊤

/-! ### spots.py : the along-route endpoint -/

/-- The columns of a `Spot` row used by `get_spots_along_route`. -/
structure Spot where
  id : ℤ
  name : String
  lat : ℝ
  lng : ℝ
  is_special : Bool

/-- One dict of the list returned by `get_spots_along_route`. -/
structure AlongRouteItem where
  id : ℤ
  name : String
  lat : ℝ
  lng : ℝ
  is_special : Bool
  distance_m : ℤ

/-- Python's `int(...)` on a float: truncation toward zero. -/
noncomputable def py_int (x : ℝ) : ℤ := if x < 0 then ⌈x⌉ else ⌊x⌋

/-- The success path of `get_spots_along_route` from `app/routers/spots.py`,
after the route has been decoded: keep the candidates whose minimum
distance to the route is at most `buffer_m`, record the truncated distance,
sort ascending by `distance_m` and return the first `limit` items. -/
noncomputable def get_spots_along_route (route_points : List (ℝ × ℝ))
    (buffer_m : ℤ) (lim : ℕ) (candidates : List Spot) : List AlongRouteItem :=
  ((candidates.filterMap (fun s =>
      match calculate_distance_to_route s.lat s.lng route_points with
      | ⊤ => none
      | (x : ℝ) =>
        if x ≤ (buffer_m : ℝ) then
          some { id := s.id, name := s.name, lat := s.lat, lng := s.lng,
                 is_special := s.is_special, distance_m := py_int x }
        else none)).mergeSort
    (fun a b => decide (a.distance_m ≤ b.distance_m))).take lim

/-! ### planner.py : error propagation of the playlist endpoint -/

/-- Step 3 of `generate_playlist_greedy`:
`list({content.id: content for content in followed_contents}.values())` —
keys in order of first occurrence, each mapped to the last content carrying
that id. -/
def dedup_by_id (l : List Content) : List Content :=
  (l.foldl (fun ks c => if c.id ∈ ks then ks else ks ++ [c.id]) []).filterMap
    (fun i => (l.filter (fun c => c.id == i)).getLast?)

/-- The whole of `generate_playlist_greedy`, with its error behaviour: the
`try` body raises `HTTPException(404)` when the user follows no oshis or
when no followed content passes the language/type filters, and the
trailing `except Exception` catches any such exception — `HTTPException`
included — and re-raises `HTTPException(500)`.  The shuffles of step 5 are
arbitrary request-local permutations, passed in as functions; the
database-derived inputs (`has_oshis`, the filtered `followed_contents`,
the related-oshi lookup) are passed in as parameters. -/
def generate_playlist_greedy_http (relOshis : Content → List String)
    (target_duration_min tolerance_min max_items : ℤ)
    (has_oshis : Bool) (followed_contents : List Content)
    (shuffle_p shuffle_o : List Content → List Content) :
    Except ℕ (List PlaylistItem × PlaylistSummary) :=
  let body : Except ℕ (List PlaylistItem × PlaylistSummary) :=
    if has_oshis = false then Except.error 404
    else if followed_contents.isEmpty then Except.error 404
    else
      Except.ok (generate_playlist_core relOshis
        target_duration_min tolerance_min max_items
        (shuffle_p (priority_contents target_duration_min (dedup_by_id followed_contents)))
        (shuffle_o (other_contents target_duration_min (dedup_by_id followed_contents))))
  match body with
  | Except.ok r => Except.ok r
  | Except.error _ => Except.error 500

/-- The `generate_playlist` endpoint of `app/routers/planner.py`: the
input validations (HTTP 400), the user-existence check (HTTP 404), then
the call to `generate_playlist_greedy`, whose own `HTTPException`s the
endpoint re-raises unchanged. -/
def generate_playlist_endpoint (relOshis : Content → List String)
    (target_duration_min max_items tolerance_min : ℤ)
    (user_exists has_oshis : Bool) (followed_contents : List Content)
    (shuffle_p shuffle_o : List Content → List Content) :
    Except ℕ (List PlaylistItem × PlaylistSummary) :=
  if target_duration_min ≤ 0 then Except.error 400
  else if max_items ≤ 0 ∨ 100 < max_items then Except.error 400
  else if tolerance_min < 0 then Except.error 400
  else if user_exists = false then Except.error 404
  else generate_playlist_greedy_http relOshis target_duration_min tolerance_min
    max_items has_oshis followed_contents shuffle_p shuffle_o

/-! ### Variant A selection as worded in the specification -/

/-- Modelled from the spec's wording of Variant A, for comparison with the
source's `generate_playlist_greedy`: greedily walk a list of candidates,
appending every item whose duration does not exceed
`remaining + tolerance`, and stopping at `max_items`.  Returns the selected
items together with the final remaining minutes and selection count. -/
def spec_greedy_select (tolerance_min max_items : ℤ) :
    List Content → ℤ → ℕ → List Content × ℤ × ℕ
  | [], remaining, k => ([], remaining, k)
  | c :: rest, remaining, k =>
    if (k : ℤ) ≥ max_items then ([], remaining, k)
    else if c.duration_min ≤ remaining + tolerance_min then
      let r := spec_greedy_select tolerance_min max_items rest
        (remaining - c.duration_min) (k + 1)
      (c :: r.1, r.2.1, r.2.2)
    else spec_greedy_select tolerance_min max_items rest remaining k

/-- Modelled from the spec: the claimed Variant A selection — all fitting
priority-band items first, then other items, stopping only at `max_items`
or when no remaining item fits. -/
def variantA_selection (target_duration_min tolerance_min max_items : ℤ)
    (shuffled_priority shuffled_other : List Content) : List Content :=
  (spec_greedy_select tolerance_min max_items
    (shuffled_priority ++ shuffled_other) target_duration_min 0).1

/-- The same selection with the gate the source actually implements: the
pass over the other items runs only when, after the priority pass, the
remaining minutes still exceed the tolerance and the playlist is not
full. -/
def variantA_gated_selection (target_duration_min tolerance_min max_items : ℤ)
    (shuffled_priority shuffled_other : List Content) : List Content :=
  let r := spec_greedy_select tolerance_min max_items shuffled_priority
    target_duration_min 0
  if r.2.1 > tolerance_min ∧ (r.2.2 : ℤ) < max_items then
    r.1 ++ (spec_greedy_select tolerance_min max_items shuffled_other r.2.1 r.2.2).1
  else r.1

/-! ## Claim theorems -/

/-- C2: for positive target and tolerance, `calculate_efficiency_score`
returns 1 at or below target, decays linearly by `0.2 * overage/tolerance`
within the tolerance, and is `max 0 (0.8 - (overage - tolerance)/target)`
beyond it; moreover `score(50,60,5) = 1`, `score(63,60,5) = 0.88`, and
`score(70,60,5)` lies in `[0, 0.8)`. -/
theorem c2_efficiency_score_spec (actual_min target_min tolerance_min : ℤ)
    (_ht : 0 < target_min) (_htol : 0 < tolerance_min) :
    (actual_min ≤ target_min →
      calculate_efficiency_score actual_min target_min tolerance_min = 1) ∧
    (0 < actual_min - target_min → actual_min - target_min ≤ tolerance_min →
      calculate_efficiency_score actual_min target_min tolerance_min =
        1 - (((actual_min - target_min : ℤ) : ℚ) / ((tolerance_min : ℤ) : ℚ)) * 0.2) ∧
    (tolerance_min < actual_min - target_min →
      calculate_efficiency_score actual_min target_min tolerance_min =
        max 0 (0.8 - ((actual_min - target_min - tolerance_min : ℤ) : ℚ) /
          ((target_min : ℤ) : ℚ))) ∧
    calculate_efficiency_score 50 60 5 = 1 ∧
    calculate_efficiency_score 63 60 5 = 0.88 ∧
    calculate_efficiency_score 70 60 5 < 0.8 ∧
    0 ≤ calculate_efficiency_score 70 60 5 := by
  refine ⟨?_, ?_, ?_, ?_, ?_, ?_, ?_⟩
  · intro h
    rw [calculate_efficiency_score, if_pos h]
  · intro h1 h2
    rw [calculate_efficiency_score, if_neg (by omega), if_pos h2]
  · intro h1
    rw [calculate_efficiency_score, if_neg (by omega), if_neg (by omega)]
  · rw [calculate_efficiency_score, if_pos (by norm_num)]
  · norm_num [calculate_efficiency_score]
  · norm_num [calculate_efficiency_score]
  · norm_num [calculate_efficiency_score]

theorem c2_efficiency_score_spec_witness :
    (0 : ℤ) < 60 ∧ (0 : ℤ) < 5 ∧ calculate_efficiency_score 63 60 5 = 0.88 :=
  ⟨by decide, by decide,
    (c2_efficiency_score_spec 63 60 5 (by decide) (by decide)).2.2.2.2.1⟩

/-- C6: with `tolerance_min = 0` and `actual_min > target_min`, the guard
`overage <= tolerance_min` is false, so the computation takes the penalty
branch — the expression dividing by `tolerance_min` is never evaluated,
and no division by zero occurs. -/
theorem c6_zero_tolerance_penalty_branch (actual_min target_min : ℤ)
    (h : target_min < actual_min) :
    ¬(actual_min - target_min ≤ 0) ∧
    calculate_efficiency_score actual_min target_min 0 =
      max 0 (0.8 - ((actual_min - target_min - 0 : ℤ) : ℚ) /
        ((target_min : ℤ) : ℚ)) := by
  constructor
  · omega
  · rw [calculate_efficiency_score, if_neg (by omega), if_neg (by omega)]

theorem c6_zero_tolerance_penalty_branch_witness :
    (60 : ℤ) < 70 ∧
    (¬((70 : ℤ) - 60 ≤ 0) ∧
      calculate_efficiency_score 70 60 0 =
        max 0 (0.8 - (((70 : ℤ) - 60 - 0 : ℤ) : ℚ) / (((60 : ℤ) : ℤ) : ℚ))) :=
  ⟨by decide, c6_zero_tolerance_penalty_branch 70 60 (by decide)⟩

/-- C5: decoding the standard reference polyline yields (38.5, -120.2) as
the first point and (40.7, -120.95) as the second, exactly (zig-zag 5-bit
groups, scaled by 1e-5, accumulated from (0,0) left to right). -/
theorem c5_decode_reference_vector :
    (decode_polyline "_p~iF~ps|U_ulLnnqC_mqNvxq`@").head? = some (38.5, -120.2) ∧
    (decode_polyline "_p~iF~ps|U_ulLnnqC_mqNvxq`@")[1]? =
      some ((40.7 : ℚ), (-120.95 : ℚ)) := by
  have h : decode_points "_p~iF~ps|U_ulLnnqC_mqNvxq`@".data 0 0 =
      some [(3850000, -12020000), (4070000, -12095000), (4325200, -12645300)] := by
    decide
  constructor
  · simp only [decode_polyline, h, Option.getD_some, List.map_cons, List.head?_cons]
    norm_num
  · simp only [decode_polyline, h, Option.getD_some, List.map_cons,
      List.getElem?_cons_succ, List.getElem?_cons_zero]
    norm_num

/-- C9: `decode_polyline` is total and returns either the complete decoded
sequence or `[]`; in particular the empty string decodes to `[]`, and the
two malformed inputs `"_"` (non-terminating continuation bit) and
`"_p~iF~ps|U_"` (one full point followed by a truncated group) both give
`[]` rather than a partial prefix. -/
theorem c9_decode_total_or_empty :
    decode_polyline "" = [] ∧
    decode_polyline "_" = [] ∧
    decode_polyline "_p~iF~ps|U_" = [] ∧
    ∀ s : String,
      (∃ pts, decode_points s.data 0 0 = some pts ∧
        decode_polyline s =
          pts.map (fun p => ((p.1 : ℚ) * 0.00001, (p.2 : ℚ) * 0.00001))) ∨
      (decode_points s.data 0 0 = none ∧ decode_polyline s = []) := by
  refine ⟨rfl, ?_, ?_, ?_⟩
  · have h : decode_points "_".data 0 0 = none := by decide
    simp [decode_polyline, h]
  · have h : decode_points "_p~iF~ps|U_".data 0 0 = none := by decide
    simp [decode_polyline, h]
  · intro s
    cases h : decode_points s.data 0 0 with
    | none => exact Or.inr ⟨rfl, by simp [decode_polyline, h]⟩
    | some pts => exact Or.inl ⟨pts, rfl, by simp [decode_polyline, h]⟩

/-- C8: with valid arguments, an existing user who follows oshis, and an
empty filtered candidate pool, the playlist endpoint surfaces HTTP 500 —
the `except Exception` in `generate_playlist_greedy` swallows the
deliberately raised `HTTPException(404)` — so `NoCandidates` is *not*
distinguishable from an internal error, while the `InvalidArgument`
validations do return 400. -/
theorem c8_nocandidates_surfaced_as_500 :
    generate_playlist_endpoint (fun _ => []) 60 20 5 true true [] id id =
      Except.error 500 ∧
    (500 : ℕ) ≠ 404 ∧
    generate_playlist_endpoint (fun _ => []) 0 20 5 true true [] id id =
      Except.error 400 ∧
    generate_playlist_endpoint (fun _ => []) 60 101 5 true true [] id id =
      Except.error 400 ∧
    generate_playlist_endpoint (fun _ => []) 60 0 5 true true [] id id =
      Except.error 400 ∧
    generate_playlist_endpoint (fun _ => []) 60 20 (-1) true true [] id id =
      Except.error 400 := by
  exact ⟨rfl, by decide, rfl, rfl, rfl, rfl⟩

/-! ### Invariants of the greedy passes -/

theorem greedy_pass_length_le (relOshis : Content → List String)
    (target_duration_min tolerance_min max_items : ℤ) :
    ∀ (l : List Content) (st : GreedyState),
      (st.playlist.length : ℤ) ≤ max_items →
      (((greedy_pass relOshis target_duration_min tolerance_min max_items l
        st).playlist.length : ℤ) ≤ max_items) := by
  intro l
  induction l with
  | nil => intro st h; exact h
  | cons c rest ih =>
    intro st h
    by_cases h1 : (st.playlist.length : ℤ) ≥ max_items
    · simp only [greedy_pass, if_pos h1]
      exact h
    · by_cases h2 : c.duration_min ≤ st.remaining_duration + tolerance_min
      · simp only [greedy_pass, if_neg h1, if_pos h2]
        refine ih _ ?_
        simp only [greedy_append, List.length_append, List.length_cons,
          List.length_nil]
        push_cast
        omega
      · simp only [greedy_pass, if_neg h1, if_neg h2]
        exact ih _ h

theorem greedy_pass_current_sum (relOshis : Content → List String)
    (target_duration_min tolerance_min max_items : ℤ) :
    ∀ (l : List Content) (st : GreedyState),
      st.current_duration = (st.playlist.map PlaylistItem.duration_min).sum →
      (greedy_pass relOshis target_duration_min tolerance_min max_items l
          st).current_duration =
        ((greedy_pass relOshis target_duration_min tolerance_min max_items l
          st).playlist.map PlaylistItem.duration_min).sum := by
  intro l
  induction l with
  | nil => intro st h; exact h
  | cons c rest ih =>
    intro st h
    by_cases h1 : (st.playlist.length : ℤ) ≥ max_items
    · simp only [greedy_pass, if_pos h1]
      exact h
    · by_cases h2 : c.duration_min ≤ st.remaining_duration + tolerance_min
      · simp only [greedy_pass, if_neg h1, if_pos h2]
        refine ih _ ?_
        simp only [greedy_append, List.map_append, List.sum_append,
          List.map_cons, List.map_nil, List.sum_cons, List.sum_nil]
        omega
      · simp only [greedy_pass, if_neg h1, if_neg h2]
        exact ih _ h

/-- C1: every result of the greedy composition has at most `max_items`
entries, its summary's total duration is the sum of the durations of the
included entries, its overage is `max 0 (total - target)`, and its
efficiency score is `calculate_efficiency_score total target tolerance`. -/
theorem c1_compose_postconditions (relOshis : Content → List String)
    (target_duration_min tolerance_min max_items : ℤ)
    (shuffled_priority shuffled_other : List Content)
    (hmax : 1 ≤ max_items) :
    (((generate_playlist_core relOshis target_duration_min tolerance_min
        max_items shuffled_priority shuffled_other).1.length : ℤ) ≤ max_items) ∧
    ((generate_playlist_core relOshis target_duration_min tolerance_min
        max_items shuffled_priority shuffled_other).2.total_duration_min =
      ((generate_playlist_core relOshis target_duration_min tolerance_min
        max_items shuffled_priority shuffled_other).1.map
          PlaylistItem.duration_min).sum) ∧
    ((generate_playlist_core relOshis target_duration_min tolerance_min
        max_items shuffled_priority shuffled_other).2.overage_min =
      max 0 ((generate_playlist_core relOshis target_duration_min tolerance_min
        max_items shuffled_priority shuffled_other).2.total_duration_min -
          target_duration_min)) ∧
    ((generate_playlist_core relOshis target_duration_min tolerance_min
        max_items shuffled_priority shuffled_other).2.efficiency_score =
      calculate_efficiency_score
        (generate_playlist_core relOshis target_duration_min tolerance_min
          max_items shuffled_priority shuffled_other).2.total_duration_min
        target_duration_min tolerance_min) := by
  refine ⟨?_, ?_, rfl, rfl⟩
  · simp only [generate_playlist_core]
    split_ifs with hg
    · refine greedy_pass_length_le _ _ _ _ _ _ ?_
      refine greedy_pass_length_le _ _ _ _ _ _ ?_
      simp only [List.length_nil, Int.ofNat_zero]
      omega
    · refine greedy_pass_length_le _ _ _ _ _ _ ?_
      simp only [List.length_nil, Int.ofNat_zero]
      omega
  · simp only [generate_playlist_core]
    split_ifs with hg
    · exact greedy_pass_current_sum _ _ _ _ _ _
        (greedy_pass_current_sum _ _ _ _ _ _ rfl)
    · exact greedy_pass_current_sum _ _ _ _ _ _ rfl

theorem c1_compose_postconditions_witness :
    (1 : ℤ) ≤ 20 ∧
    ((((generate_playlist_core (fun _ => []) 60 5 20 [] []).1.length : ℤ) ≤ 20) ∧
      ((generate_playlist_core (fun _ => []) 60 5 20 [] []).2.total_duration_min =
        (((generate_playlist_core (fun _ => []) 60 5 20 [] []).1.map
          PlaylistItem.duration_min).sum)) ∧
      ((generate_playlist_core (fun _ => []) 60 5 20 [] []).2.overage_min =
        max 0 ((generate_playlist_core (fun _ => []) 60 5 20 [] []).2.total_duration_min - 60)) ∧
      ((generate_playlist_core (fun _ => []) 60 5 20 [] []).2.efficiency_score =
        calculate_efficiency_score
          (generate_playlist_core (fun _ => []) 60 5 20 [] []).2.total_duration_min 60 5)) :=
  ⟨by decide, c1_compose_postconditions (fun _ => []) 60 5 20 [] [] (by decide)⟩

/-! ### Correspondence between the greedy passes and the worded selection -/

theorem greedy_pass_matches_spec (relOshis : Content → List String)
    (target_duration_min tolerance_min max_items : ℤ) :
    ∀ (l : List Content) (st : GreedyState),
      st.remaining_duration = target_duration_min - st.current_duration →
      ((greedy_pass relOshis target_duration_min tolerance_min max_items l
          st).playlist.map PlaylistItem.content_id =
        st.playlist.map PlaylistItem.content_id ++
          (spec_greedy_select tolerance_min max_items l st.remaining_duration
            st.playlist.length).1.map Content.id) ∧
      ((greedy_pass relOshis target_duration_min tolerance_min max_items l
          st).remaining_duration =
        (spec_greedy_select tolerance_min max_items l st.remaining_duration
          st.playlist.length).2.1) ∧
      ((greedy_pass relOshis target_duration_min tolerance_min max_items l
          st).playlist.length =
        (spec_greedy_select tolerance_min max_items l st.remaining_duration
          st.playlist.length).2.2) ∧
      ((greedy_pass relOshis target_duration_min tolerance_min max_items l
          st).remaining_duration =
        target_duration_min -
          (greedy_pass relOshis target_duration_min tolerance_min max_items l
            st).current_duration) := by
  intro l
  induction l with
  | nil =>
    intro st h
    exact ⟨by simp [greedy_pass, spec_greedy_select], rfl, rfl, h⟩
  | cons c rest ih =>
    intro st h
    by_cases h1 : (st.playlist.length : ℤ) ≥ max_items
    · refine ⟨?_, ?_, ?_, ?_⟩
      · simp [greedy_pass, spec_greedy_select, if_pos h1]
      · simp [greedy_pass, spec_greedy_select, if_pos h1]
      · simp [greedy_pass, spec_greedy_select, if_pos h1]
      · simp only [greedy_pass, if_pos h1]
        exact h
    · by_cases h2 : c.duration_min ≤ st.remaining_duration + tolerance_min
      · have hinv : (greedy_append relOshis target_duration_min c st).remaining_duration =
            target_duration_min -
              (greedy_append relOshis target_duration_min c st).current_duration := by
          simp only [greedy_append]
        have hrem : (greedy_append relOshis target_duration_min c st).remaining_duration =
            st.remaining_duration - c.duration_min := by
          simp only [greedy_append]
          omega
        have hlen : (greedy_append relOshis target_duration_min c st).playlist.length =
            st.playlist.length + 1 := by
          simp [greedy_append]
        have hmap : (greedy_append relOshis target_duration_min c st).playlist.map
            PlaylistItem.content_id =
            st.playlist.map PlaylistItem.content_id ++ [c.id] := by
          simp [greedy_append]
        obtain ⟨e1, e2, e3, e4⟩ := ih (greedy_append relOshis target_duration_min c st) hinv
        rw [hrem, hlen] at e1 e2 e3
        rw [hmap] at e1
        refine ⟨?_, ?_, ?_, ?_⟩
        · simp only [greedy_pass, spec_greedy_select, if_neg h1, if_pos h2]
          rw [e1]
          simp [List.append_assoc]
        · simp only [greedy_pass, spec_greedy_select, if_neg h1, if_pos h2]
          exact e2
        · simp only [greedy_pass, spec_greedy_select, if_neg h1, if_pos h2]
          exact e3
        · simp only [greedy_pass, if_neg h1, if_pos h2]
          exact e4
      · obtain ⟨e1, e2, e3, e4⟩ := ih st h
        refine ⟨?_, ?_, ?_, ?_⟩
        · simp only [greedy_pass, spec_greedy_select, if_neg h1, if_neg h2]
          exact e1
        · simp only [greedy_pass, spec_greedy_select, if_neg h1, if_neg h2]
          exact e2
        · simp only [greedy_pass, spec_greedy_select, if_neg h1, if_neg h2]
          exact e3
        · simp only [greedy_pass, if_neg h1, if_neg h2]
          exact e4

/-- C7 (amended): the playlist selected by the source equals the worded
Variant A selection with the gate the source actually implements — the
pass over the non-priority items runs only when, after the priority pass,
the remaining minutes still exceed the tolerance and the playlist is not
full. -/
theorem c7_variant_a_gated (relOshis : Content → List String)
    (target_duration_min tolerance_min max_items : ℤ)
    (shuffled_priority shuffled_other : List Content) :
    (generate_playlist_core relOshis target_duration_min tolerance_min max_items
        shuffled_priority shuffled_other).1.map PlaylistItem.content_id =
      (variantA_gated_selection target_duration_min tolerance_min max_items
        shuffled_priority shuffled_other).map Content.id := by
  obtain ⟨e1, e2, e3, e4⟩ := greedy_pass_matches_spec relOshis target_duration_min
    tolerance_min max_items shuffled_priority ⟨[], 0, target_duration_min⟩ (by simp)
  dsimp only at e1 e2 e3
  simp only [List.length_nil, List.map_nil, List.nil_append] at e1 e2 e3
  simp only [generate_playlist_core, variantA_gated_selection]
  by_cases hg : (greedy_pass relOshis target_duration_min tolerance_min max_items
      shuffled_priority ⟨[], 0, target_duration_min⟩).remaining_duration > tolerance_min ∧
      (((greedy_pass relOshis target_duration_min tolerance_min max_items
        shuffled_priority ⟨[], 0, target_duration_min⟩).playlist.length : ℤ) < max_items)
  · have hgs : (spec_greedy_select tolerance_min max_items shuffled_priority
        target_duration_min 0).2.1 > tolerance_min ∧
        (((spec_greedy_select tolerance_min max_items shuffled_priority
          target_duration_min 0).2.2 : ℤ) < max_items) := by
      refine ⟨?_, ?_⟩
      · rw [← e2]; exact hg.1
      · rw [← e3]; exact hg.2
    rw [if_pos hg, if_pos hgs]
    obtain ⟨f1, _, _, _⟩ := greedy_pass_matches_spec relOshis target_duration_min
      tolerance_min max_items shuffled_other
      (greedy_pass relOshis target_duration_min tolerance_min max_items
        shuffled_priority ⟨[], 0, target_duration_min⟩) e4
    rw [f1, e1, e2, e3, List.map_append]
  · have hgs : ¬((spec_greedy_select tolerance_min max_items shuffled_priority
        target_duration_min 0).2.1 > tolerance_min ∧
        (((spec_greedy_select tolerance_min max_items shuffled_priority
          target_duration_min 0).2.2 : ℤ) < max_items)) := by
      intro hh
      exact hg ⟨by rw [e2]; exact hh.1, by rw [e3]; exact hh.2⟩
    rw [if_neg hg, if_neg hgs]
    exact e1

/-- C7 (counterexample): pool of two contents with durations 1 and 2,
target 10, tolerance 100, max 5.  Duration 1 is in the 5%–15% priority
band, duration 2 is not.  After the priority pass the remaining minutes
(9) do not exceed the tolerance (100), so the source never scans the other
item even though it fits, while the claimed ungated Variant A selection
takes both. -/
theorem c7_banded_selection_counterexample :
    priority_contents 10
        [⟨1, "a", 1, none, "youtube", none⟩, ⟨2, "b", 2, none, "youtube", none⟩] =
      [⟨1, "a", 1, none, "youtube", none⟩] ∧
    other_contents 10
        [⟨1, "a", 1, none, "youtube", none⟩, ⟨2, "b", 2, none, "youtube", none⟩] =
      [⟨2, "b", 2, none, "youtube", none⟩] ∧
    (generate_playlist_core (fun _ => []) 10 100 5
        [⟨1, "a", 1, none, "youtube", none⟩]
        [⟨2, "b", 2, none, "youtube", none⟩]).1.map PlaylistItem.content_id = [1] ∧
    (variantA_selection 10 100 5
        [⟨1, "a", 1, none, "youtube", none⟩]
        [⟨2, "b", 2, none, "youtube", none⟩]).map Content.id = [1, 2] ∧
    ([1] : List ℤ) ≠ [1, 2] := by
  refine ⟨?_, ?_, ?_, ?_, ?_⟩
  · norm_num [priority_contents, List.filter_cons, decide_eq_true_eq]
  · norm_num [other_contents, List.filter_cons, decide_eq_true_eq]
  · decide
  · decide
  · decide

/-! ### Properties of the haversine distance -/

theorem atan2_nonneg {y x : ℝ} (hy : 0 ≤ y) (hx : 0 ≤ x) : 0 ≤ atan2 y x := by
  unfold atan2
  split_ifs with h1 h2 h3 h4 <;>
    first
      | (have h := Real.arctan_strictMono.monotone (div_nonneg hy h1.le);
         rwa [Real.arctan_zero] at h)
      | linarith [Real.pi_pos]

theorem haversine_nonneg (lat1 lon1 lat2 lon2 : ℝ) :
    0 ≤ haversine_km lat1 lon1 lat2 lon2 := by
  unfold haversine_km
  have h1 : 0 ≤ atan2 (Real.sqrt (hav_a lat1 lon1 lat2 lon2))
      (Real.sqrt (1 - hav_a lat1 lon1 lat2 lon2)) :=
    atan2_nonneg (Real.sqrt_nonneg _) (Real.sqrt_nonneg _)
  have h2 : (0 : ℝ) ≤ EARTH_RADIUS_KM := by norm_num [EARTH_RADIUS_KM]
  nlinarith

theorem haversine_self (lat lon : ℝ) : haversine_km lat lon lat lon = 0 := by
  have ha : hav_a lat lon lat lon = 0 := by
    simp [hav_a, radians, sub_self]
  rw [haversine_km, ha, Real.sqrt_zero, sub_zero, Real.sqrt_one]
  have h2 : atan2 0 1 = 0 := by
    rw [atan2, if_pos one_pos]
    simp [Real.arctan_zero]
  rw [h2]
  ring

theorem haversine_symm (lat1 lon1 lat2 lon2 : ℝ) :
    haversine_km lat1 lon1 lat2 lon2 = haversine_km lat2 lon2 lat1 lon1 := by
  have hsin : ∀ x y : ℝ,
      Real.sin (radians (x - y) / 2) ^ 2 = Real.sin (radians (y - x) / 2) ^ 2 := by
    intro x y
    have hxy : radians (x - y) / 2 = -(radians (y - x) / 2) := by
      unfold radians; ring
    rw [hxy, Real.sin_neg]
    ring
  have ha : hav_a lat1 lon1 lat2 lon2 = hav_a lat2 lon2 lat1 lon1 := by
    unfold hav_a
    rw [hsin lat2 lat1, hsin lon2 lon1]
    ring
  rw [haversine_km, haversine_km, ha]

theorem haversine_equator (l1 l2 : ℝ) (h0 : 0 ≤ l2 - l1) (h1 : l2 - l1 < 180) :
    haversine_km 0 l1 0 l2 = EARTH_RADIUS_KM * radians (l2 - l1) := by
  have hpi := Real.pi_pos
  have hθ0 : 0 ≤ radians (l2 - l1) / 2 := by
    unfold radians
    positivity
  have hθlt : radians (l2 - l1) / 2 < Real.pi / 2 := by
    unfold radians
    nlinarith
  have hcospos : 0 < Real.cos (radians (l2 - l1) / 2) :=
    Real.cos_pos_of_mem_Ioo ⟨by linarith, hθlt⟩
  have hsinpos : 0 ≤ Real.sin (radians (l2 - l1) / 2) :=
    Real.sin_nonneg_of_nonneg_of_le_pi hθ0 (by linarith)
  have ha : hav_a 0 l1 0 l2 = Real.sin (radians (l2 - l1) / 2) ^ 2 := by
    simp [hav_a, radians]
  rw [haversine_km, ha, Real.sqrt_sq hsinpos]
  have h1s : 1 - Real.sin (radians (l2 - l1) / 2) ^ 2 =
      Real.cos (radians (l2 - l1) / 2) ^ 2 := by
    have h := Real.sin_sq_add_cos_sq (radians (l2 - l1) / 2)
    linarith
  rw [h1s, Real.sqrt_sq hcospos.le]
  have hat : atan2 (Real.sin (radians (l2 - l1) / 2))
      (Real.cos (radians (l2 - l1) / 2)) = radians (l2 - l1) / 2 := by
    rw [atan2, if_pos hcospos, ← Real.tan_eq_sin_div_cos]
    exact Real.arctan_tan (by linarith) hθlt
  rw [hat]
  ring

/-! ### Properties of the per-segment distance -/

theorem segment_distance_nonneg (a b c d e f : ℝ) :
    0 ≤ segment_distance a b c d e f := by
  unfold segment_distance
  split_ifs <;> exact mul_nonneg (haversine_nonneg _ _ _ _) (by norm_num)

theorem segment_distance_start_zero (lat1 lng1 lat2 lng2 : ℝ) :
    segment_distance lat1 lng1 lat1 lng1 lat2 lng2 = 0 := by
  have hdot : seg_dot lat1 lng1 lat1 lng1 lat2 lng2 = 0 := by
    unfold seg_dot
    simp [sub_self]
  unfold segment_distance
  split_ifs with h1 h2 h3
  · rw [haversine_self]; ring
  · rw [haversine_self]; ring
  · rw [hdot] at h3; linarith
  · rw [hdot] at h2; exact absurd le_rfl h2

/-! ### The running minimum over the route segments -/

theorem route_foldl_le_init (spot_lat spot_lng : ℝ) :
    ∀ (l : List ((ℝ × ℝ) × (ℝ × ℝ))) (init : WithTop ℝ),
      l.foldl (fun m seg =>
        min m ↑(segment_distance spot_lat spot_lng seg.1.1 seg.1.2 seg.2.1 seg.2.2))
          init ≤ init := by
  intro l
  induction l with
  | nil => intro init; exact le_rfl
  | cons a rest ih =>
    intro init
    rw [List.foldl_cons]
    exact le_trans (ih _) (min_le_left _ _)

theorem route_foldl_le_of_mem (spot_lat spot_lng : ℝ) :
    ∀ (l : List ((ℝ × ℝ) × (ℝ × ℝ))) (init : WithTop ℝ)
      (seg : (ℝ × ℝ) × (ℝ × ℝ)), seg ∈ l →
      l.foldl (fun m s =>
        min m ↑(segment_distance spot_lat spot_lng s.1.1 s.1.2 s.2.1 s.2.2)) init ≤
        ↑(segment_distance spot_lat spot_lng seg.1.1 seg.1.2 seg.2.1 seg.2.2) := by
  intro l
  induction l with
  | nil => intro init seg h; simp at h
  | cons a rest ih =>
    intro init seg h
    rcases List.mem_cons.mp h with h' | h'
    · subst h'
      rw [List.foldl_cons]
      exact le_trans (route_foldl_le_init _ _ _ _) (min_le_right _ _)
    · rw [List.foldl_cons]
      exact ih _ _ h'

theorem le_route_foldl (spot_lat spot_lng : ℝ) :
    ∀ (l : List ((ℝ × ℝ) × (ℝ × ℝ))) (init bound : WithTop ℝ),
      bound ≤ init →
      (∀ seg ∈ l, bound ≤
        ↑(segment_distance spot_lat spot_lng seg.1.1 seg.1.2 seg.2.1 seg.2.2)) →
      bound ≤ l.foldl (fun m seg =>
        min m ↑(segment_distance spot_lat spot_lng seg.1.1 seg.1.2 seg.2.1 seg.2.2))
          init := by
  intro l
  induction l with
  | nil => intro init bound h _; exact h
  | cons a rest ih =>
    intro init bound h hall
    rw [List.foldl_cons]
    refine ih _ _ (le_min h (hall a (List.mem_cons_self a rest))) ?_
    intro seg hseg
    exact hall seg (List.mem_cons_of_mem a hseg)

/-! ### C3 and C4 -/

/-- C3 (counterexample): over the single-point route `[(0, 1)]` the code
returns `inf` (the loop over `len(route) - 1` segments runs zero times),
not the haversine distance to that point converted to metres. -/
theorem c3_single_point_counterexample :
    calculate_distance_to_route 0 0 [((0 : ℝ), (1 : ℝ))] = ⊤ ∧
    calculate_distance_to_route 0 0 [((0 : ℝ), (1 : ℝ))] ≠
      ((haversine_km 0 0 0 1 * 1000 : ℝ) : WithTop ℝ) := by
  refine ⟨rfl, ?_⟩
  intro h
  have h' : (⊤ : WithTop ℝ) = ((haversine_km 0 0 0 1 * 1000 : ℝ) : WithTop ℝ) := h
  exact WithTop.coe_ne_top h'.symm

/-- C3 (amended): `calculate_distance_to_route` returns `inf` both over an
empty route and over a route containing exactly one point. -/
theorem c3_single_point_route_inf :
    (∀ (spot_lat spot_lng : ℝ) (q : ℝ × ℝ),
      calculate_distance_to_route spot_lat spot_lng [q] = ⊤) ∧
    (∀ spot_lat spot_lng : ℝ,
      calculate_distance_to_route spot_lat spot_lng [] = ⊤) :=
  ⟨fun _ _ _ => rfl, fun _ _ => rfl⟩

/-- C4 (amended): a point that coincides with a vertex of the route that
starts some segment — any vertex except the final one — is at distance 0
from the route: the segment beginning at that vertex contributes
`dist1 = 0` (via `dot <= 0` or the zero-length shortcut), and every other
contribution is nonnegative. -/
theorem c4_nonfinal_vertex_zero (route_points : List (ℝ × ℝ)) (i : ℕ)
    (h : i + 1 < route_points.length) :
    calculate_distance_to_route (route_points.getD i (0, 0)).1
      (route_points.getD i (0, 0)).2 route_points = 0 := by
  have hi : i < route_points.length := by omega
  have hzi : i < (route_points.zip route_points.tail).length := by
    rw [List.length_zip, List.length_tail]
    omega
  have hti : i < route_points.tail.length := by
    rw [List.length_tail]; omega
  have hseg : (route_points.zip route_points.tail)[i] =
      (route_points[i], route_points[i + 1]) := by
    rw [List.getElem_zip, List.getElem_tail]
  have hmem : ((route_points[i], route_points[i + 1]) :
      (ℝ × ℝ) × (ℝ × ℝ)) ∈ route_points.zip route_points.tail := by
    rw [← hseg]
    exact List.getElem_mem hzi
  rw [List.getD_eq_getElem route_points (0, 0) hi]
  unfold calculate_distance_to_route
  refine le_antisymm ?_ ?_
  · have hle := route_foldl_le_of_mem (route_points[i]).1 (route_points[i]).2
      (route_points.zip route_points.tail) ⊤ _ hmem
    have hzero : segment_distance (route_points[i]).1 (route_points[i]).2
        (route_points[i], route_points[i + 1]).1.1
        (route_points[i], route_points[i + 1]).1.2
        (route_points[i], route_points[i + 1]).2.1
        (route_points[i], route_points[i + 1]).2.2 = 0 :=
      segment_distance_start_zero _ _ _ _
    rw [hzero] at hle
    rw [WithTop.coe_zero] at hle
    exact hle
  · refine le_route_foldl _ _ _ _ _ le_top ?_
    intro seg _
    rw [← WithTop.coe_zero, WithTop.coe_le_coe]
    exact segment_distance_nonneg _ _ _ _ _ _

theorem c4_nonfinal_vertex_zero_witness :
    0 + 1 < ([((0 : ℝ), (0 : ℝ)), ((0 : ℝ), (1 : ℝ))] : List (ℝ × ℝ)).length ∧
    calculate_distance_to_route
      (([((0 : ℝ), (0 : ℝ)), ((0 : ℝ), (1 : ℝ))] : List (ℝ × ℝ)).getD 0 (0, 0)).1
      (([((0 : ℝ), (0 : ℝ)), ((0 : ℝ), (1 : ℝ))] : List (ℝ × ℝ)).getD 0 (0, 0)).2
      [((0 : ℝ), (0 : ℝ)), ((0 : ℝ), (1 : ℝ))] = 0 :=
  ⟨by norm_num,
    c4_nonfinal_vertex_zero [((0 : ℝ), (0 : ℝ)), ((0 : ℝ), (1 : ℝ))] 0 (by norm_num)⟩

/-- C4 (counterexample): the point `(0, 1)` coincides with the final
vertex of the two-point route `[(0, 0), (0, 1)]`, yet its computed
distance to the route is not 0: the projection scalar divides a
degree-space numerator by a metre-space denominator, giving a tiny
positive `dot`, so the code measures the distance to a projection point
close to `(0, 0)` instead of to the vertex itself. -/
theorem c4_final_vertex_counterexample :
    calculate_distance_to_route 0 1 [((0 : ℝ), (0 : ℝ)), ((0 : ℝ), (1 : ℝ))] ≠ 0 := by
  have hpi := Real.pi_pos
  have hLval : seg_len_m 0 0 0 1 = EARTH_RADIUS_KM * radians 1 * 1000 := by
    rw [seg_len_m, haversine_equator 0 1 (by norm_num) (by norm_num)]
    norm_num
  have hL1 : 1 < seg_len_m 0 0 0 1 := by
    rw [hLval]
    unfold EARTH_RADIUS_KM radians
    nlinarith [Real.pi_gt_three]
  have hL2 : 0 < seg_len_m 0 0 0 1 * seg_len_m 0 0 0 1 := by nlinarith
  have hdot : seg_dot 0 1 0 0 0 1 = 1 / (seg_len_m 0 0 0 1 * seg_len_m 0 0 0 1) := by
    unfold seg_dot
    norm_num
  have hdotpos : 0 < seg_dot 0 1 0 0 0 1 := by
    rw [hdot]
    exact div_pos one_pos hL2
  have hdotlt : seg_dot 0 1 0 0 0 1 < 1 := by
    rw [hdot, div_lt_one hL2]
    nlinarith
  unfold calculate_distance_to_route
  simp only [List.tail_cons, List.zip_cons_cons, List.zip_nil_right,
    List.foldl_cons, List.foldl_nil]
  rw [min_eq_right le_top]
  rw [← WithTop.coe_zero, Ne, WithTop.coe_eq_coe]
  unfold segment_distance
  rw [if_neg (by linarith), if_neg (not_le.mpr hdotpos), if_neg (not_le.mpr hdotlt)]
  have harg1 : (0 : ℝ) + seg_dot 0 1 0 0 0 1 * (0 - 0) = 0 := by ring
  have harg2 : (0 : ℝ) + seg_dot 0 1 0 0 0 1 * (1 - 0) = seg_dot 0 1 0 0 0 1 := by ring
  rw [harg1, harg2, haversine_symm,
    haversine_equator (seg_dot 0 1 0 0 0 1) 1 (by linarith) (by linarith)]
  have hpos : 0 < EARTH_RADIUS_KM * radians (1 - seg_dot 0 1 0 0 0 1) * 1000 := by
    have hr : 0 < radians (1 - seg_dot 0 1 0 0 0 1) := by
      unfold radians
      have hd : (0 : ℝ) < 1 - seg_dot 0 1 0 0 0 1 := by linarith
      positivity
    have hR : (0 : ℝ) < EARTH_RADIUS_KM := by norm_num [EARTH_RADIUS_KM]
    positivity
  exact hpos.ne'

/-! ### C10 : invariants of the along-route endpoint -/

theorem py_int_le {x : ℝ} {b : ℤ} (h : x ≤ (b : ℝ)) : py_int x ≤ b := by
  unfold py_int
  split_ifs with hneg
  · exact Int.ceil_le.mpr h
  · calc ⌊x⌋ ≤ ⌊(b : ℝ)⌋ := Int.floor_le_floor h
    _ = b := Int.floor_intCast b

theorem along_route_filter_distance (route_points : List (ℝ × ℝ))
    (buffer_m : ℤ) (candidates : List Spot) :
    ∀ it ∈ candidates.filterMap (fun s =>
      match calculate_distance_to_route s.lat s.lng route_points with
      | ⊤ => none
      | (x : ℝ) =>
        if x ≤ (buffer_m : ℝ) then
          some ({ id := s.id, name := s.name, lat := s.lat, lng := s.lng,
                  is_special := s.is_special, distance_m := py_int x } : AlongRouteItem)
        else none), it.distance_m ≤ buffer_m := by
  intro it hit
  rw [List.mem_filterMap] at hit
  obtain ⟨s, _, hs⟩ := hit
  cases hd : calculate_distance_to_route s.lat s.lng route_points with
  | top =>
    rw [hd] at hs
    simp at hs
  | coe x =>
    rw [hd] at hs
    dsimp only at hs
    split_ifs at hs with hb
    cases hs
    exact py_int_le hb

/-- C10: every successful response of the along-route endpoint contains
only items whose truncated distance is at most `buffer_m`, sorted in
ascending order of `distance_m`, and no more than `limit` of them. -/
theorem c10_along_route_invariants (route_points : List (ℝ × ℝ))
    (buffer_m : ℤ) (lim : ℕ) (candidates : List Spot) :
    (∀ it ∈ get_spots_along_route route_points buffer_m lim candidates,
      it.distance_m ≤ buffer_m) ∧
    List.Pairwise (fun a b => a.distance_m ≤ b.distance_m)
      (get_spots_along_route route_points buffer_m lim candidates) ∧
    (get_spots_along_route route_points buffer_m lim candidates).length ≤ lim := by
  unfold get_spots_along_route
  refine ⟨?_, ?_, ?_⟩
  · intro it hit
    exact along_route_filter_distance route_points buffer_m candidates it
      ((List.mergeSort_perm _ _).subset ((List.take_sublist _ _).subset hit))
  · refine List.Pairwise.sublist (List.take_sublist _ _) ?_
    have htrans : ∀ a b c : AlongRouteItem,
        (decide (a.distance_m ≤ b.distance_m)) = true →
        (decide (b.distance_m ≤ c.distance_m)) = true →
        (decide (a.distance_m ≤ c.distance_m)) = true := by
      intro a b c hab hbc
      rw [decide_eq_true_eq] at hab hbc ⊢
      exact le_trans hab hbc
    have htotal : ∀ a b : AlongRouteItem,
        ((decide (a.distance_m ≤ b.distance_m)) ||
          (decide (b.distance_m ≤ a.distance_m))) = true := by
      intro a b
      rw [Bool.or_eq_true, decide_eq_true_eq, decide_eq_true_eq]
      exact le_total _ _
    have hs := List.sorted_mergeSort htrans htotal
      (candidates.filterMap (fun s =>
        match calculate_distance_to_route s.lat s.lng route_points with
        | ⊤ => none
        | (x : ℝ) =>
          if x ≤ (buffer_m : ℝ) then
            some ({ id := s.id, name := s.name, lat := s.lat, lng := s.lng,
                    is_special := s.is_special, distance_m := py_int x } : AlongRouteItem)
          else none))
    exact hs.imp (fun h => decide_eq_true_eq.mp h)
  · rw [List.length_take]
    exact min_le_left _ _
